import Mathlib

/-!
Verification development for the report-fetching, caching and formatting core
of the baby-care chat service (`supabase_tools.py`, `main.py`).

The Python values that flow through the code are JSON-derived: we embed them
as the inductive type `JVal`.  Python dictionaries are association lists that
preserve insertion order, as Python (and JSON decoding) does.  Fallible
Python code (statements that can raise) is embedded as `Except String`
computations; a `.error` value models an uncaught exception.  `time.time()`
is modelled as an integer number of seconds, and the external Supabase store
is modelled as an oracle parameter giving the outcome of each query.
-/

/-- A JSON-derived Python value: `None`, `bool`, `int`, `str`, `list`, `dict`. -/
inductive JVal where
  | null
  | b (x : Bool)
  | i (x : Int)
  | s (x : String)
  | arr (xs : List JVal)
  | obj (kvs : List (String × JVal))

/-- A Python dict with string keys (the shape of every JSON object here). -/
abbrev Jobj := List (String × JVal)

/-- Python truthiness (`bool(v)`) for JSON-derived values. -/
def jtruthy : JVal → Bool
  | JVal.null => false
  | JVal.b x => x
  | JVal.i x => x != 0
  | JVal.s x => x != ""
  | JVal.arr xs => !xs.isEmpty
  | JVal.obj kvs => !kvs.isEmpty

/-- `d.get(k)`: first binding of `k` in the association list, if any. -/
def jget : Jobj → String → Option JVal
  | [], _ => none
  | (k0, v) :: rest, k => if k0 = k then some v else jget rest k

/-- `d.get(k, dflt)`: lookup with a default for an absent key. -/
def lookupD (kvs : Jobj) (k : String) (dflt : JVal) : JVal :=
  match jget kvs k with
  | some v => v
  | none => dflt

/-- `d[k] = v`: dict assignment (replace the existing binding or append). -/
def jset : Jobj → String → JVal → Jobj
  | [], k, v => [(k, v)]
  | (k0, v0) :: rest, k, v =>
    if k0 = k then (k, v) :: rest else (k0, v0) :: jset rest k v

/-- Truthiness of an optional value (`d.get(k)` used in a condition:
an absent key yields Python `None`, which is falsy). -/
def otruthy : Option JVal → Bool
  | some v => jtruthy v
  | none => false

/-- `x or {}` as used in `item.get("data") or {}`: a falsy value is replaced
by the empty dict. -/
def pyOrEmpty : Option JVal → JVal
  | some v => if jtruthy v then v else JVal.obj []
  | none => JVal.obj []

mutual

/-- Python `repr` of a JSON-derived value (string escaping inside nested
reprs is simplified to plain single quotes; no value in this development
contains quotes or braces). -/
def pyRepr : JVal → String
  | JVal.null => "None"
  | JVal.b true => "True"
  | JVal.b false => "False"
  | JVal.i x => toString x
  | JVal.s x => "'" ++ x ++ "'"
  | JVal.arr xs => "[" ++ pyReprList xs ++ "]"
  | JVal.obj kvs => "\x7b" ++ pyReprObj kvs ++ "\x7d"

/-- Comma-separated reprs of the elements of a Python list. -/
def pyReprList : List JVal → String
  | [] => ""
  | [x] => pyRepr x
  | x :: y :: xs => pyRepr x ++ ", " ++ pyReprList (y :: xs)

/-- Comma-separated `'key': value` reprs of the entries of a Python dict. -/
def pyReprObj : List (String × JVal) → String
  | [] => ""
  | [(k, v)] => "'" ++ k ++ "': " ++ pyRepr v
  | (k, v) :: e :: kvs => "'" ++ k ++ "': " ++ pyRepr v ++ ", " ++ pyReprObj (e :: kvs)

end

/-- Python `str()` of a JSON-derived value (as interpolated by f-strings). -/
def pyStr : JVal → String
  | JVal.s x => x
  | v => pyRepr v

/-- `str()` of an optional value: an absent key is Python `None`. -/
def pyStrOpt : Option JVal → String
  | some v => pyStr v
  | none => "None"

/-! ## Timestamps: `datetime.fromisoformat` and duration arithmetic

`format_baby_report` parses `str(start).replace("Z", "+00:00")` with
`datetime.fromisoformat` and takes `(e - s).total_seconds() / 60`.  We model
a parsed datetime by its microsecond offset from the Unix epoch together
with its awareness flag (subtracting a naive from an aware datetime raises
`TypeError` in Python, which the surrounding `except` swallows).  The parser
covers the grammar `YYYY-MM-DD[<sep>HH[:MM[:SS[.fff|.ffffff]]]][±HH:MM[:SS]]`
accepted by CPython's `fromisoformat`, with calendar validation. -/

/-- A parsed `datetime`: timezone-aware or naive, positioned by microseconds
from the Unix epoch (for a naive datetime, as if it were UTC). -/
structure PyDateTime where
  aware : Bool
  micros : Int
deriving DecidableEq

/-- Gregorian leap-year rule. -/
def isLeapYear (y : Nat) : Bool :=
  (y % 4 == 0 && y % 100 != 0) || y % 400 == 0

/-- Number of days in a month (1-based), for date validation. -/
def daysInMonth (y m : Nat) : Nat :=
  if m == 2 then (if isLeapYear y then 29 else 28)
  else if m == 4 || m == 6 || m == 9 || m == 11 then 30
  else 31

/-- Days from the Unix epoch to the civil date `y-m-d` (valid for `y ≥ 1`). -/
def daysFromCivil (y m d : Nat) : Int :=
  let y1 : Nat := if m ≤ 2 then y - 1 else y
  let era : Nat := y1 / 400
  let yoe : Nat := y1 - era * 400
  let mp : Nat := (m + 9) % 12
  let doy : Nat := (153 * mp + 2) / 5 + d - 1
  let doe : Nat := yoe * 365 + yoe / 4 - yoe / 100 + doy
  (era * 146097 + doe : Nat) - (719468 : Int)

/-- Read exactly `n` decimal digits into a number, returning the rest. -/
def readNatAux (acc : Nat) : Nat → List Char → Option (Nat × List Char)
  | 0, cs => some (acc, cs)
  | _ + 1, [] => none
  | n + 1, c :: cs =>
    if c.isDigit then readNatAux (acc * 10 + (c.toNat - 48)) n cs else none

/-- Read a fixed-width decimal number. -/
def readNatFixed (n : Nat) (cs : List Char) : Option (Nat × List Char) :=
  readNatAux 0 n cs

/-- Consume one expected character. -/
def expectChar (ch : Char) : List Char → Option (List Char)
  | [] => none
  | c :: cs => if c == ch then some cs else none

/-- Split off the maximal leading run of digits. -/
def splitDigits : List Char → (List Char × List Char)
  | [] => ([], [])
  | c :: cs =>
    if c.isDigit then
      let p := splitDigits cs
      (c :: p.1, p.2)
    else ([], c :: cs)

/-- Decimal value of a digit run. -/
def digitsToNat (ds : List Char) : Nat :=
  ds.foldl (fun a c => a * 10 + (c.toNat - 48)) 0

/-- Optional fractional-seconds suffix `.fff` or `.ffffff`, in microseconds. -/
def parseFrac : List Char → Option (Nat × List Char)
  | '.' :: rest =>
    let p := splitDigits rest
    if p.1.length == 6 then some (digitsToNat p.1, p.2)
    else if p.1.length == 3 then some (digitsToNat p.1 * 1000, p.2)
    else none
  | cs => some (0, cs)

/-- Time-of-day part `HH[:MM[:SS[.frac]]]`, returning
`(hour, minute, second, microsecond, rest)`. -/
def parseHMS (cs : List Char) : Option (Nat × Nat × Nat × Nat × List Char) := do
  let (h, cs1) ← readNatFixed 2 cs
  if h > 23 then none else
  match cs1 with
  | ':' :: cs2 => do
    let (mi, cs3) ← readNatFixed 2 cs2
    if mi > 59 then none else
    match cs3 with
    | ':' :: cs4 => do
      let (sec, cs5) ← readNatFixed 2 cs4
      if sec > 59 then none else do
      let (us, cs6) ← parseFrac cs5
      some (h, mi, sec, us, cs6)
    | _ => some (h, mi, 0, 0, cs3)
  | _ => some (h, 0, 0, 0, cs1)

/-- UTC-offset suffix `±HH:MM[:SS]`; the remainder must be fully consumed.
`some none` means a valid naive datetime (no offset present); `some (some z)`
is an aware datetime with offset `z` seconds. -/
def parseOffset : List Char → Option (Option Int)
  | [] => some none
  | sign :: cs =>
    if sign == '+' || sign == '-' then do
      let (oh, cs1) ← readNatFixed 2 cs
      let cs2 ← expectChar ':' cs1
      let (om, cs3) ← readNatFixed 2 cs2
      let (os, cs4) ← (match cs3 with
        | ':' :: cs5 => do
          let (os, cs6) ← readNatFixed 2 cs5
          some (os, cs6)
        | _ => some (0, cs3))
      if !cs4.isEmpty then none
      else if oh > 23 || om > 59 || os > 59 then none
      else
        let total : Int := (oh * 3600 + om * 60 + os : Nat)
        some (some (if sign == '-' then -total else total))
    else none

/-- `datetime.fromisoformat` on the supported grammar.  The date part is
mandatory (`YYYY-MM-DD`, calendar-checked); any single character may
separate it from the optional time part, per CPython. -/
def pyFromIsoformat (str : String) : Option PyDateTime := do
  let cs := str.data
  let (y, cs1) ← readNatFixed 4 cs
  let cs2 ← expectChar '-' cs1
  let (mo, cs3) ← readNatFixed 2 cs2
  let cs4 ← expectChar '-' cs3
  let (d, cs5) ← readNatFixed 2 cs4
  if y < 1 || mo < 1 || mo > 12 || d < 1 || d > daysInMonth y mo then none else
  match cs5 with
  | [] => some { aware := false, micros := daysFromCivil y mo d * 86400000000 }
  | _ :: cs6 => do
    let (h, mi, sec, us, cs7) ← parseHMS cs6
    let off ← parseOffset cs7
    let base : Int := daysFromCivil y mo d * 86400 + (h * 3600 + mi * 60 + sec : Nat)
    match off with
    | none => some { aware := false, micros := base * 1000000 + us }
    | some offSecs => some { aware := true, micros := (base - offSecs) * 1000000 + us }

/-- Round-half-to-even division (Python's `round(num / den)` on the exact
rational value), for `den > 0`. -/
def roundHalfEvenDiv (num den : Int) : Int :=
  let q := Int.fdiv num den
  let r := num - q * den
  if 2 * r < den then q
  else if den < 2 * r then q + 1
  else if Int.emod q 2 == 0 then q else q + 1

/-! ## Context Formatter (`format_baby_report`, `supabase_tools.py` 107-195)

The formatter is embedded one source region at a time.  Statements that can
raise (attribute access on a non-dict, slicing a non-sliceable `notes`
value, joining a non-string fragment) surface as `.error`; everything the
source guards (falsy values, non-list category values, absent keys) is
total.  The inner `try/except` around the duration computation swallows
every exception, so `durationFrag` is a total function. -/

/-- `s.replace("Z", "+00:00")` (source lines 172-173): every occurrence of
the single character `Z` is replaced. -/
def replaceZchars : List Char → List Char
  | [] => []
  | c :: cs =>
    if c == 'Z' then '+' :: '0' :: '0' :: ':' :: '0' :: '0' :: replaceZchars cs
    else c :: replaceZchars cs

/-- String form of the `Z` replacement. -/
def pyReplaceZ (str : String) : String :=
  String.mk (replaceZchars str.data)

/-- The duration fragment (source lines 163-178): parse `startTime` and
`endTime` with `fromisoformat` after replacing `"Z"` with `"+00:00"`, and
emit `"<minutes>m"` when the difference lies strictly between 0 and 24
hours.  Any exception (parse failure, naive/aware mix) is swallowed. -/
def durationFrag (dt : Jobj) : List String :=
  match jget dt "startTime", jget dt "endTime" with
  | some sv, some ev =>
    if jtruthy sv && jtruthy ev then
      match pyFromIsoformat (pyReplaceZ (pyStr sv)),
            pyFromIsoformat (pyReplaceZ (pyStr ev)) with
      | some sdt, some edt =>
        if sdt.aware == edt.aware then
          let d := edt.micros - sdt.micros
          if 0 < d && d < 86400000000 then
            [toString (roundHalfEvenDiv d 60000000) ++ "m"]
          else []
        else []
      | _, _ => []
    else []
  | _, _ => []

/-- The `type` fragment (source lines 161, 167-168): appended when truthy.
A truthy non-string value would make the final `" | ".join` raise
`TypeError` (source line 189), modelled here as the error. -/
def typeFrag (v : Option JVal) : Except String (List String) :=
  match v with
  | none => Except.ok []
  | some v =>
    if jtruthy v then
      match v with
      | JVal.s t => Except.ok [t]
      | _ => Except.error "TypeError"
    else Except.ok []

/-- The `notes` fragment (source lines 163, 185-186): `notes[:120]` when
truthy.  Slicing a truthy non-string raises (directly, or at the join for a
list value), modelled as the error. -/
def notesFrag (v : Option JVal) : Except String (List String) :=
  match v with
  | none => Except.ok []
  | some v =>
    if jtruthy v then
      match v with
      | JVal.s t => Except.ok [t.take 120]
      | _ => Except.error "TypeError"
    else Except.ok []

/-- The `value=` fragment (source lines 179-180): keyed on key presence. -/
def valueFrag (dt : Jobj) : List String :=
  match jget dt "value" with
  | some v => ["value=" ++ pyStr v]
  | none => []

/-- The temperature fragment (source lines 181-182): note the source emits
`temp=`, not `temperature=`. -/
def tempFrag (dt : Jobj) : List String :=
  match jget dt "temperature" with
  | some v => ["temp=" ++ pyStr v ++ "°C"]
  | none => []

/-- The `tooth=` fragment (source lines 183-184). -/
def toothFrag (dt : Jobj) : List String :=
  match jget dt "tooth_name" with
  | some v => ["tooth=" ++ pyStr v]
  | none => []

/-- One item's fragment list (source lines 160-188): fragments in the fixed
order type, duration, value, temperature, tooth, notes, with `["entry"]`
substituted when empty.  A non-dict item or a truthy non-dict `data`
raises `AttributeError` (source lines 161-163). -/
def itemParts (item : JVal) : Except String (List String) :=
  match item with
  | JVal.obj itm =>
    match pyOrEmpty (jget itm "data") with
    | JVal.obj dt =>
      match notesFrag (jget dt "notes") with
      | Except.error e => Except.error e
      | Except.ok nFrag =>
        match typeFrag (jget itm "type") with
        | Except.error e => Except.error e
        | Except.ok tFrag =>
          let parts := tFrag ++ durationFrag dt ++ valueFrag dt
            ++ tempFrag dt ++ toothFrag dt ++ nFrag
          Except.ok (if parts.isEmpty then ["entry"] else parts)
    | _ => Except.error "AttributeError"
  | _ => Except.error "AttributeError"

/-- One rendered item line (source line 189): `"- " + " | ".join(parts)`. -/
def itemLine (item : JVal) : Except String String :=
  match itemParts item with
  | Except.error e => Except.error e
  | Except.ok ps => Except.ok ("- " ++ String.intercalate " | " ps)

/-- Render a list of items into their lines, stopping at the first raise. -/
def itemLinesOf : List JVal → Except String (List String)
  | [] => Except.ok []
  | it :: rest =>
    match itemLine it with
    | Except.error e => Except.error e
    | Except.ok l =>
      match itemLinesOf rest with
      | Except.error e => Except.error e
      | Except.ok ls => Except.ok (l :: ls)

/-- `cat.upper()` (source line 155): ASCII uppercasing, character-wise. -/
def pyUpper (str : String) : String :=
  String.mk (str.data.map Char.toUpper)

/-- One category section (source lines 154-192): header, then either a
`"- (no entries)"` line for a non-list or empty value, or up to `k` item
lines followed by an omission count when more items exist, then a blank
line. -/
def categorySection (k : Nat) (cat : String) (items : JVal) : Except String (List String) :=
  match items with
  | JVal.arr its =>
    if its.isEmpty then Except.ok ["[" ++ pyUpper cat ++ "]", "- (no entries)", ""]
    else
      match itemLinesOf (its.take k) with
      | Except.error e => Except.error e
      | Except.ok ls =>
        Except.ok (("[" ++ pyUpper cat ++ "]") :: ls
          ++ (if k < its.length then ["... (+" ++ toString (its.length - k) ++ " more)"] else [])
          ++ [""])
  | _ => Except.ok ["[" ++ pyUpper cat ++ "]", "- (no entries)", ""]

/-- All category sections, in dict order (source line 154). -/
def catsAux (k : Nat) : List (String × JVal) → Except String (List String)
  | [] => Except.ok []
  | (c, its) :: rest =>
    match categorySection k c its with
    | Except.error e => Except.error e
    | Except.ok sec =>
      match catsAux k rest with
      | Except.error e => Except.error e
      | Except.ok more => Except.ok (sec ++ more)

/-- The categories block: iterating a non-dict `categories` value raises. -/
def categoriesLines (k : Nat) : JVal → Except String (List String)
  | JVal.obj cs => catsAux k cs
  | _ => Except.error "AttributeError"

/-- The meta block (source lines 130-139): date or period line, optional
log count (an `is not None` check) and generation timestamp.  A truthy
non-dict `meta` raises at `meta.get`. -/
def metaLines (meta : JVal) : Except String (List String) :=
  if jtruthy meta then
    match meta with
    | JVal.obj m =>
      Except.ok
        ((if otruthy (jget m "date") then
            ["Date: " ++ pyStrOpt (jget m "date")]
          else if otruthy (jget m "period_start") || otruthy (jget m "period_end") then
            ["Period: " ++ pyStrOpt (jget m "period_start") ++ " → "
              ++ pyStrOpt (jget m "period_end")]
          else [])
        ++ (match jget m "log_count" with
            | some JVal.null => []
            | some v => ["Logs Count: " ++ pyStr v]
            | none => [])
        ++ (if otruthy (jget m "generated_at") then
              ["Generated At: " ++ pyStrOpt (jget m "generated_at")]
            else []))
    | _ => Except.error "AttributeError"
  else Except.ok []

/-- One aggregate line (source lines 145-150): a dict value is flattened to
`subkey=subvalue` pairs, skipping `None` subvalues. -/
def aggInnerParts : List (String × JVal) → List String
  | [] => []
  | (ik, iv) :: rest =>
    (match iv with
     | JVal.null => []
     | _ => [ik ++ "=" ++ pyStr iv]) ++ aggInnerParts rest

/-- Render one aggregate entry. -/
def aggLine (key : String) (v : JVal) : String :=
  match v with
  | JVal.obj kvs => "- " ++ key ++ ": " ++ String.intercalate ", " (aggInnerParts kvs)
  | _ => "- " ++ key ++ ": " ++ pyStr v

/-- The aggregates block (source lines 142-151), emitted only when the
toggle is on and the value is truthy; iterating a truthy non-dict raises. -/
def aggregatesLines (includeAgg : Bool) (aggs : JVal) : Except String (List String) :=
  if includeAgg && jtruthy aggs then
    match aggs with
    | JVal.obj kvs =>
      Except.ok ("[AGGREGATES]" :: kvs.map (fun p => aggLine p.1 p.2) ++ [""])
    | _ => Except.error "AttributeError"
  else Except.ok []

/-- The full line list of `format_baby_report` for a non-empty row (source
lines 117-194): header, meta block, blank line, aggregates, categories,
trailing cap note.  A non-dict `data` value raises at
`data.get("categories", {})` (source line 120). -/
def formatBabyReportLines (row : Jobj) (k : Nat) (includeAgg : Bool) :
    Except String (List String) :=
  match lookupD row "data" (JVal.obj []) with
  | JVal.obj d =>
    match metaLines (lookupD d "meta" (JVal.obj [])) with
    | Except.error e => Except.error e
    | Except.ok mLines =>
      match aggregatesLines includeAgg (lookupD d "aggregates" (JVal.obj [])) with
      | Except.error e => Except.error e
      | Except.ok aLines =>
        match categoriesLines k (lookupD d "categories" (JVal.obj [])) with
        | Except.error e => Except.error e
        | Except.ok cLines =>
          Except.ok
            ((["=== BABY REPORT CONTEXT ===",
               "Type: " ++ pyStrOpt (jget row "report_type")]
              ++ (if otruthy (jget row "created_at") then
                    ["DB Created: " ++ pyStrOpt (jget row "created_at")]
                  else [])
              ++ mLines ++ [""])
            ++ aLines
            ++ cLines
            ++ ["(Trimmed to " ++ toString k ++ " items per category)"])
  | _ => Except.error "AttributeError"

/-- `format_baby_report` (source lines 107-195): a falsy (empty) row
renders to the placeholder, otherwise the line list is joined with
newlines. -/
def formatBabyReport (row : Jobj) (k : Nat) (includeAgg : Bool) :
    Except String String :=
  if row.isEmpty then Except.ok "Report: (empty)"
  else
    match formatBabyReportLines row k includeAgg with
    | Except.error e => Except.error e
    | Except.ok ls => Except.ok (String.intercalate "\n" ls)

/-! ## Record Store Accessor (`supabase_tools.py` 43-105, 197-229)

The process-wide cache `_REPORT_CACHE` maps `(baby_id, report_type)` to
`(fetch timestamp, normalized row)`; it is threaded explicitly.  The
Supabase query (client creation, `select`, `execute`) is modelled by an
oracle `store` that, given the access token, baby id and report type,
either yields the result rows or fails (any exception inside the `try`
block).  `json.loads` is likewise an oracle `jsonLoads` from strings to
decoded values (`none` models `json.JSONDecodeError`). -/

/-- Cache type of `_REPORT_CACHE` (source line 44). -/
abbrev Jcache := List ((String × String) × (Int × Jobj))

/-- `_REPORT_CACHE_TTL` (source line 45). -/
def REPORT_CACHE_TTL : Int := 60

/-- Outcome of one store query: transport/auth failure, or the result rows. -/
inductive StoreResult where
  | unavailable
  | rows (xs : List Jobj)

/-- Result of `get_baby_report_raw`: the updated cache, whether a store
query was issued, and the returned row (if any). -/
structure RawResult where
  cache : Jcache
  queried : Bool
  result : Option Jobj

/-- `_REPORT_CACHE.get(key)`. -/
def cacheGet : Jcache → (String × String) → Option (Int × Jobj)
  | [], _ => none
  | (k0, v) :: rest, k => if k0 = k then some v else cacheGet rest k

/-- `_REPORT_CACHE[key] = value`. -/
def cacheInsert : Jcache → (String × String) → (Int × Jobj) → Jcache
  | [], k, v => [(k, v)]
  | (k0, v0) :: rest, k, v =>
    if k0 = k then (k, v) :: rest else (k0, v0) :: cacheInsert rest k v

/-- `_parse_report_data` (source lines 47-55): a dict is returned as is; a
string is decoded with `json.loads` (an undecodable one becomes `{}`);
anything else becomes `{}`.  Note a string decoding to a non-dict is
returned unchanged. -/
def parseReportData (jsonLoads : String → Option JVal) : JVal → JVal
  | JVal.obj kvs => JVal.obj kvs
  | JVal.s str =>
    match jsonLoads str with
    | some v => v
    | none => JVal.obj []
  | _ => JVal.obj []

/-- Row normalization (source lines 85-100): parse the `data` field and
replace it by a dict with `categories`, `aggregates` and `meta`, each
defaulted to `{}` unless the parsed value holds a dict under that key.
`parsed.get` raises `AttributeError` when `_parse_report_data` returned a
non-dict (a string that decoded to a JSON non-object). -/
def normalizeRow (jsonLoads : String → Option JVal) (row : Jobj) :
    Except String Jobj :=
  match parseReportData jsonLoads
      (match jget row "data" with | some v => v | none => JVal.null) with
  | JVal.obj p =>
    let categories :=
      match jget p "categories" with
      | some (JVal.obj c) => JVal.obj c
      | _ => JVal.obj []
    let aggregates :=
      match jget p "aggregates" with
      | some (JVal.obj a) => JVal.obj a
      | _ => JVal.obj []
    let meta :=
      match jget p "meta" with
      | some (JVal.obj m) => JVal.obj m
      | _ => JVal.obj []
    Except.ok (jset row "data"
      (JVal.obj [("categories", categories), ("aggregates", aggregates), ("meta", meta)]))
  | _ => Except.error "AttributeError"

/-- The fetch path of `get_baby_report_raw` (the `try` block, source lines
71-105): any exception — client creation, transport, or normalization —
is caught and turned into `None`; zero rows also yield `None`.  Only a
successful fetch of at least one row writes the cache (source line 101). -/
def fetchFromStore (jsonLoads : String → Option JVal)
    (store : String → String → String → StoreResult)
    (now : Int) (st : Jcache) (babyId accessToken reportType : String) : RawResult :=
  match store accessToken babyId reportType with
  | StoreResult.unavailable => ⟨st, true, none⟩
  | StoreResult.rows [] => ⟨st, true, none⟩
  | StoreResult.rows (row :: _) =>
    match normalizeRow jsonLoads row with
    | Except.error _ => ⟨st, true, none⟩
    | Except.ok row2 => ⟨cacheInsert st (babyId, reportType) (now, row2), true, some row2⟩

/-- `get_baby_report_raw` (source lines 57-105): return the cached row when
the entry is younger than the TTL, otherwise fetch from the store. -/
def getBabyReportRaw (jsonLoads : String → Option JVal)
    (store : String → String → String → StoreResult)
    (now : Int) (st : Jcache) (babyId accessToken reportType : String) : RawResult :=
  match cacheGet st (babyId, reportType) with
  | some (t, row) =>
    if now - t < REPORT_CACHE_TTL then ⟨st, false, some row⟩
    else fetchFromStore jsonLoads store now st babyId accessToken reportType
  | none => fetchFromStore jsonLoads store now st babyId accessToken reportType

/-- `get_baby_report_formatted` (source lines 197-206): a falsy row (absent
or empty) yields the `No report found` text, otherwise the formatter runs
(its exceptions propagate to the caller). -/
def getBabyReportFormatted (jsonLoads : String → Option JVal)
    (store : String → String → String → StoreResult)
    (now : Int) (st : Jcache) (babyId accessToken reportType : String) (k : Nat) :
    Except String (Jcache × String) :=
  let r := getBabyReportRaw jsonLoads store now st babyId accessToken reportType
  match r.result with
  | none => Except.ok (r.cache, "No report found: " ++ reportType)
  | some row =>
    if row.isEmpty then Except.ok (r.cache, "No report found: " ++ reportType)
    else
      match formatBabyReport row k true with
      | Except.error e => Except.error e
      | Except.ok text => Except.ok (r.cache, text)

/-- `s.startswith(p)` (source line 229). -/
def pyStartsWith (s p : String) : Bool :=
  p.data.isPrefixOf s.data

/-- Stable insertion of an element into a key-sorted list (used to model
Python's stable `list.sort(key=...)`). -/
def insertByKey (f : α → Nat) (a : α) : List α → List α
  | [] => [a]
  | b :: bs => if f a ≤ f b then a :: b :: bs else b :: insertByKey f a bs

/-- Stable sort by key, as `list.sort(key=...)`. -/
def insSortByKey (f : α → Nat) : List α → List α
  | [] => []
  | a :: as => insertByKey f a (insSortByKey f as)

/-- `get_combined_reports_for_prompt` (source lines 208-229): collect the
weekly and daily formatted blocks (each fetched with a per-category cap of
6), stably sort them into the requested order, drop empty or
`No report found` blocks, and join the survivors with a blank line. -/
def getCombinedReportsForPrompt (jsonLoads : String → Option JVal)
    (store : String → String → String → StoreResult)
    (now : Int) (st : Jcache) (babyId accessToken : String)
    (includeWeekly includeDaily : Bool) (order : String) :
    Except String (Jcache × String) :=
  match (if includeWeekly then
          (getBabyReportFormatted jsonLoads store now st babyId accessToken
            "weekly_summary" 6).map (fun p => (p.1, [("weekly_summary", p.2)]))
        else Except.ok (st, [])) with
  | Except.error e => Except.error e
  | Except.ok (st1, blocks1) =>
    match (if includeDaily then
            (getBabyReportFormatted jsonLoads store now st1 babyId accessToken
              "end_of_day_summary" 6).map (fun p => (p.1, [("end_of_day_summary", p.2)]))
          else Except.ok (st1, [])) with
    | Except.error e => Except.error e
    | Except.ok (st2, blocks2) =>
      let blocks := blocks1 ++ blocks2
      let sorted :=
        if order == "daily_first" then
          insSortByKey (fun b => if b.1 == "end_of_day_summary" then 0 else 1) blocks
        else
          insSortByKey (fun b => if b.1 == "weekly_summary" then 0 else 1) blocks
      Except.ok (st2, String.intercalate "\n\n"
        ((sorted.filter (fun b => b.2 != "" && !(pyStartsWith b.2 "No report found"))).map
          (fun b => b.2)))

/-! ## Module-level names (`main.py` 18-23 against `supabase_tools.py`)

A `from M import a, b, ...` statement succeeds exactly when every listed
name is an attribute of module `M`; a module's attributes are its top-level
bindings (imports, constants, functions). -/

/-- Every top-level name bound in `supabase_tools.py`. -/
def supabaseToolsModuleNames : List String :=
  ["annotations", "os", "json", "time", "datetime", "timezone",
   "Any", "Dict", "Optional", "List", "Tuple", "create_client", "Client",
   "_get_supabase_auth_client", "get_baby_id_for_user",
   "_REPORT_CACHE", "_REPORT_CACHE_TTL", "_parse_report_data",
   "get_baby_report_raw", "format_baby_report", "get_baby_report_formatted",
   "get_combined_reports_for_prompt", "get_chat_history", "add_to_chat_history"]

/-- The names `main.py` imports from `supabase_tools` (source lines 18-23). -/
def mainImportedNames : List String :=
  ["get_baby_id_for_user", "get_baby_logs_for_prompt",
   "get_chat_history", "add_to_chat_history"]

/-- Whether the `from supabase_tools import ...` statement of `main.py`
resolves: every imported name must be bound in the module. -/
def mainImportResolves : Bool :=
  mainImportedNames.all (fun n => supabaseToolsModuleNames.contains n)

/-! ## Well-shaped rows

A decidable sufficient condition under which `format_baby_report` cannot
raise: every guard the source actually performs, plus string (or falsy)
`type` and `notes` fields, dict items, dict-or-falsy item `data`, and
dict-or-absent `categories` / dict-or-falsy `aggregates` and `meta`. -/

/-- The optional value is absent, falsy, or a string. -/
def strOrFalsy : Option JVal → Bool
  | none => true
  | some (JVal.s _) => true
  | some v => !jtruthy v

/-- The value is a dict or falsy. -/
def objOrFalsy : JVal → Bool
  | JVal.obj _ => true
  | v => !jtruthy v

/-- An item the renderer is guaranteed not to raise on. -/
def wfItem : JVal → Bool
  | JVal.obj itm =>
    (match pyOrEmpty (jget itm "data") with
     | JVal.obj dt => strOrFalsy (jget dt "notes")
     | _ => false)
    && strOrFalsy (jget itm "type")
  | _ => false

/-- A category value the renderer is guaranteed not to raise on. -/
def wfItems : JVal → Bool
  | JVal.arr its => its.all wfItem
  | _ => true

/-- A `data` dict the renderer is guaranteed not to raise on. -/
def wfData (d : Jobj) : Bool :=
  (match jget d "categories" with
   | none => true
   | some (JVal.obj cs) => cs.all (fun p => wfItems p.2)
   | some _ => false)
  && (match jget d "aggregates" with
      | none => true
      | some v => objOrFalsy v)
  && (match jget d "meta" with
      | none => true
      | some v => objOrFalsy v)

/-- A report row the renderer is guaranteed not to raise on. -/
def wellFormedRow (row : Jobj) : Bool :=
  match jget row "data" with
  | none => true
  | some (JVal.obj d) => wfData d
  | some _ => false

/-! ## Claim-side fragment list (claim C4)

Clearly named second definitions that follow the claim's words — the type
string when present and non-empty, the derived duration, `value=` /
`temp=` / `tooth=` fragments keyed on field presence, the first 120
characters of notes when present and non-empty — to be compared with the
fragment assembly performed by `itemParts`. -/

/-- Claim side: the type fragment — the type string when present and
non-empty (an absent or falsy value contributes nothing). -/
def claimTypeFrag : Option JVal → List String
  | some (JVal.s t) => if t = "" then [] else [t]
  | _ => []

/-- Claim side: `value=<value>` when a `value` field is present. -/
def claimValueFrag : Option JVal → List String
  | some v => ["value=" ++ pyStr v]
  | none => []

/-- Claim side: `temp=<value>°C` when a `temperature` field is present. -/
def claimTempFrag : Option JVal → List String
  | some v => ["temp=" ++ pyStr v ++ "°C"]
  | none => []

/-- Claim side: `tooth=<value>` when a `tooth_name` field is present. -/
def claimToothFrag : Option JVal → List String
  | some v => ["tooth=" ++ pyStr v]
  | none => []

/-- Claim side: the first 120 characters of notes when present and
non-empty. -/
def claimNotesFrag : Option JVal → List String
  | some (JVal.s t) => if t = "" then [] else [t.take 120]
  | _ => []

/-- Claim side: the full fragment list of an item, in the claim's fixed
order. -/
def claimItemParts (itm dt : Jobj) : List String :=
  claimTypeFrag (jget itm "type")
  ++ durationFrag dt
  ++ claimValueFrag (jget dt "value")
  ++ claimTempFrag (jget dt "temperature")
  ++ claimToothFrag (jget dt "tooth_name")
  ++ claimNotesFrag (jget dt "notes")

/-! ## Helper lemmas -/

theorem jget_jset_self (r : Jobj) (k : String) (v : JVal) :
    jget (jset r k v) k = some v := by
  induction r with
  | nil => simp [jset, jget]
  | cons hd t ih =>
    obtain ⟨k0, v0⟩ := hd
    by_cases hk : k0 = k <;> simp [jset, jget, hk, ih]

theorem jset_jset (r : Jobj) (k : String) (v w : JVal) :
    jset (jset r k v) k w = jset r k w := by
  induction r with
  | nil => simp [jset]
  | cons hd t ih =>
    obtain ⟨k0, v0⟩ := hd
    by_cases hk : k0 = k <;> simp [jset, hk, ih]

theorem cacheGet_cacheInsert_self (c : Jcache) (k : String × String) (v : Int × Jobj) :
    cacheGet (cacheInsert c k v) k = some v := by
  induction c with
  | nil => simp [cacheInsert, cacheGet]
  | cons hd t ih =>
    obtain ⟨k0, v0⟩ := hd
    by_cases hk : k0 = k <;> simp [cacheInsert, cacheGet, hk, ih]

theorem fetchFromStore_queried (jsonLoads : String → Option JVal)
    (store : String → String → String → StoreResult)
    (now : Int) (st : Jcache) (babyId accessToken reportType : String) :
    (fetchFromStore jsonLoads store now st babyId accessToken reportType).queried = true := by
  unfold fetchFromStore
  split
  · rfl
  · rfl
  · split <;> rfl

theorem fetchFromStore_success (jsonLoads : String → Option JVal)
    (store : String → String → String → StoreResult)
    (now : Int) (st : Jcache) (babyId accessToken reportType : String) (row : Jobj)
    (h : (fetchFromStore jsonLoads store now st babyId accessToken reportType).result
      = some row) :
    fetchFromStore jsonLoads store now st babyId accessToken reportType
      = ⟨cacheInsert st (babyId, reportType) (now, row), true, some row⟩ := by
  unfold fetchFromStore at h ⊢
  split at h
  · simp at h
  · simp at h
  · split at h
    · simp at h
    · simp_all

theorem getBabyReportRaw_queried_fetch (jsonLoads : String → Option JVal)
    (store : String → String → String → StoreResult)
    (now : Int) (st : Jcache) (babyId accessToken reportType : String)
    (h : (getBabyReportRaw jsonLoads store now st babyId accessToken reportType).queried
      = true) :
    getBabyReportRaw jsonLoads store now st babyId accessToken reportType
      = fetchFromStore jsonLoads store now st babyId accessToken reportType := by
  unfold getBabyReportRaw at h ⊢
  split at h
  · split at h
    · simp at h
    · simp_all
  · rfl

theorem getBabyReportRaw_hit (jsonLoads : String → Option JVal)
    (store : String → String → String → StoreResult)
    (now t : Int) (st : Jcache) (babyId accessToken reportType : String) (row : Jobj)
    (hc : cacheGet st (babyId, reportType) = some (t, row))
    (ht : now - t < REPORT_CACHE_TTL) :
    getBabyReportRaw jsonLoads store now st babyId accessToken reportType
      = ⟨st, false, some row⟩ := by
  unfold getBabyReportRaw
  rw [hc]
  simp [ht]

theorem getBabyReportRaw_expired (jsonLoads : String → Option JVal)
    (store : String → String → String → StoreResult)
    (now t : Int) (st : Jcache) (babyId accessToken reportType : String) (row : Jobj)
    (hc : cacheGet st (babyId, reportType) = some (t, row))
    (ht : ¬ now - t < REPORT_CACHE_TTL) :
    getBabyReportRaw jsonLoads store now st babyId accessToken reportType
      = fetchFromStore jsonLoads store now st babyId accessToken reportType := by
  unfold getBabyReportRaw
  rw [hc]
  simp [ht]

theorem strOrFalsy_cases (v : JVal) (h : strOrFalsy (some v) = true) :
    (∃ t, v = JVal.s t) ∨ jtruthy v = false := by
  cases v <;> simp_all [strOrFalsy]

theorem notesFrag_ok (v : Option JVal) (h : strOrFalsy v = true) :
    ∃ l, notesFrag v = Except.ok l := by
  rcases v with _ | v
  · exact ⟨[], rfl⟩
  · rcases strOrFalsy_cases v h with ⟨t, rfl⟩ | hf
    · by_cases hjt : jtruthy (JVal.s t) = true
      · exact ⟨[t.take 120], by simp [notesFrag, hjt]⟩
      · exact ⟨[], by simp [notesFrag, hjt]⟩
    · exact ⟨[], by simp [notesFrag, hf]⟩

theorem typeFrag_ok (v : Option JVal) (h : strOrFalsy v = true) :
    ∃ l, typeFrag v = Except.ok l := by
  rcases v with _ | v
  · exact ⟨[], rfl⟩
  · rcases strOrFalsy_cases v h with ⟨t, rfl⟩ | hf
    · by_cases hjt : jtruthy (JVal.s t) = true
      · exact ⟨[t], by simp [typeFrag, hjt]⟩
      · exact ⟨[], by simp [typeFrag, hjt]⟩
    · exact ⟨[], by simp [typeFrag, hf]⟩

theorem itemParts_ok (item : JVal) (h : wfItem item = true) :
    ∃ ps, itemParts item = Except.ok ps := by
  rcases item with _ | _ | _ | _ | _ | itm <;> simp [wfItem] at h
  obtain ⟨h1, h2⟩ := h
  split at h1
  case h_1 dt heq =>
    obtain ⟨nl, hn⟩ := notesFrag_ok _ h1
    obtain ⟨tl, ht⟩ := typeFrag_ok _ h2
    refine ⟨if (tl ++ durationFrag dt ++ valueFrag dt ++ tempFrag dt ++ toothFrag dt
        ++ nl).isEmpty then ["entry"] else tl ++ durationFrag dt ++ valueFrag dt
        ++ tempFrag dt ++ toothFrag dt ++ nl, ?_⟩
    simp [itemParts, heq, hn, ht]
  case h_2 => simp at h1

theorem itemLine_ok (item : JVal) (h : wfItem item = true) :
    ∃ l, itemLine item = Except.ok l := by
  obtain ⟨ps, hp⟩ := itemParts_ok item h
  exact ⟨"- " ++ String.intercalate " | " ps, by simp [itemLine, hp]⟩

theorem itemLinesOf_ok (l : List JVal) (h : ∀ x ∈ l, wfItem x = true) :
    ∃ ls, itemLinesOf l = Except.ok ls := by
  induction l with
  | nil => exact ⟨[], rfl⟩
  | cons a rest ih =>
    obtain ⟨la, ha⟩ := itemLine_ok a (h a (by simp))
    obtain ⟨ls, hls⟩ := ih (fun x hx => h x (by simp [hx]))
    exact ⟨la :: ls, by simp [itemLinesOf, ha, hls]⟩

theorem itemLinesOf_length (l : List JVal) (r : List String)
    (h : itemLinesOf l = Except.ok r) : r.length = l.length := by
  induction l generalizing r with
  | nil => simp [itemLinesOf] at h; simp [← h]
  | cons a rest ih =>
    unfold itemLinesOf at h
    split at h
    · exact absurd h (by simp)
    · split at h
      · exact absurd h (by simp)
      · obtain ⟨rfl⟩ := h
        simp_all

theorem categorySection_ok (k : Nat) (c : String) (items : JVal)
    (h : wfItems items = true) :
    ∃ sec, categorySection k c items = Except.ok sec := by
  rcases items with _ | _ | _ | _ | its | _
  case arr =>
    simp only [wfItems, List.all_eq_true] at h
    by_cases he : its.isEmpty = true
    · exact ⟨["[" ++ pyUpper c ++ "]", "- (no entries)", ""],
        by simp [categorySection, he]⟩
    · obtain ⟨ls, hls⟩ := itemLinesOf_ok (its.take k)
        (fun x hx => h x (List.mem_of_mem_take hx))
      exact ⟨("[" ++ pyUpper c ++ "]") :: ls
          ++ (if k < its.length then ["... (+" ++ toString (its.length - k) ++ " more)"] else [])
          ++ [""],
        by simp [categorySection, he, hls]⟩
  all_goals exact ⟨["[" ++ pyUpper c ++ "]", "- (no entries)", ""], rfl⟩

theorem catsAux_ok (k : Nat) (cs : List (String × JVal))
    (h : ∀ p ∈ cs, wfItems p.2 = true) :
    ∃ L, catsAux k cs = Except.ok L := by
  induction cs with
  | nil => exact ⟨[], rfl⟩
  | cons p rest ih =>
    obtain ⟨sec, hs⟩ := categorySection_ok k p.1 p.2 (h p (by simp))
    obtain ⟨L, hL⟩ := ih (fun q hq => h q (by simp [hq]))
    exact ⟨sec ++ L, by simp [catsAux, hs, hL]⟩

theorem metaLines_ok (meta : JVal) (h : objOrFalsy meta = true) :
    ∃ l, metaLines meta = Except.ok l := by
  rcases meta with _ | _ | _ | _ | _ | m
  case obj =>
    unfold metaLines
    split
    · exact ⟨_, rfl⟩
    · exact ⟨[], rfl⟩
  all_goals
    simp only [objOrFalsy, Bool.not_eq_true'] at h
    exact ⟨[], by simp [metaLines, h]⟩

theorem aggregatesLines_ok (includeAgg : Bool) (aggs : JVal)
    (h : objOrFalsy aggs = true) :
    ∃ l, aggregatesLines includeAgg aggs = Except.ok l := by
  rcases aggs with _ | _ | _ | _ | _ | kvs
  case obj =>
    unfold aggregatesLines
    split
    · exact ⟨_, rfl⟩
    · exact ⟨[], rfl⟩
  all_goals
    simp only [objOrFalsy, Bool.not_eq_true'] at h
    exact ⟨[], by simp [aggregatesLines, h]⟩

theorem categoriesLines_ok (k : Nat) (cats : JVal)
    (h : match cats with
         | JVal.obj cs => ∀ p ∈ cs, wfItems p.2 = true
         | _ => False) :
    ∃ L, categoriesLines k cats = Except.ok L := by
  rcases cats with _ | _ | _ | _ | _ | cs
  case obj => exact catsAux_ok k cs h
  all_goals exact absurd h (by simp)

theorem wfData_components (d : Jobj) (h : wfData d = true) :
    (match jget d "categories" with
     | none => true
     | some (JVal.obj cs) => cs.all (fun p => wfItems p.2)
     | some _ => false) = true
    ∧ (match jget d "aggregates" with
       | none => true
       | some v => objOrFalsy v) = true
    ∧ (match jget d "meta" with
       | none => true
       | some v => objOrFalsy v) = true := by
  unfold wfData at h
  simp only [Bool.and_eq_true] at h
  exact ⟨h.1.1, h.1.2, h.2⟩

theorem wfData_metaOk (d : Jobj) (h : wfData d = true) :
    objOrFalsy (lookupD d "meta" (JVal.obj [])) = true := by
  obtain ⟨-, -, hm⟩ := wfData_components d h
  cases hv : jget d "meta" with
  | none => simp [lookupD, hv, objOrFalsy, jtruthy]
  | some v => rw [hv] at hm; simpa [lookupD, hv] using hm

theorem wfData_aggsOk (d : Jobj) (h : wfData d = true) :
    objOrFalsy (lookupD d "aggregates" (JVal.obj [])) = true := by
  obtain ⟨-, ha, -⟩ := wfData_components d h
  cases hv : jget d "aggregates" with
  | none => simp [lookupD, hv, objOrFalsy, jtruthy]
  | some v => rw [hv] at ha; simpa [lookupD, hv] using ha

theorem wfData_catsOk (k : Nat) (d : Jobj) (h : wfData d = true) :
    ∃ L, categoriesLines k (lookupD d "categories" (JVal.obj [])) = Except.ok L := by
  obtain ⟨hc, -, -⟩ := wfData_components d h
  cases hv : jget d "categories" with
  | none =>
    have hd : lookupD d "categories" (JVal.obj []) = JVal.obj [] := by simp [lookupD, hv]
    exact ⟨[], by rw [hd]; rfl⟩
  | some v =>
    rw [hv] at hc
    rcases v with _ | _ | _ | _ | _ | cs <;> simp at hc
    have hd : lookupD d "categories" (JVal.obj []) = JVal.obj cs := by simp [lookupD, hv]
    rw [hd]
    exact catsAux_ok k cs (by simpa [List.all_eq_true] using hc)

theorem formatBabyReportLines_ok (row : Jobj) (k : Nat) (includeAgg : Bool)
    (h : wellFormedRow row = true) :
    ∃ L, formatBabyReportLines row k includeAgg = Except.ok L := by
  have hd : ∃ d, lookupD row "data" (JVal.obj []) = JVal.obj d ∧ wfData d = true := by
    unfold wellFormedRow at h
    cases hv : jget row "data" with
    | none => exact ⟨[], by simp [lookupD, hv], by decide⟩
    | some v =>
      rw [hv] at h
      rcases v with _ | _ | _ | _ | _ | dd <;> simp at h
      exact ⟨dd, by simp [lookupD, hv], h⟩
  obtain ⟨d, hdv, hwf⟩ := hd
  obtain ⟨mL, hmL⟩ := metaLines_ok _ (wfData_metaOk d hwf)
  obtain ⟨aL, haL⟩ := aggregatesLines_ok includeAgg _ (wfData_aggsOk d hwf)
  obtain ⟨cL, hcL⟩ := wfData_catsOk k d hwf
  refine ⟨(["=== BABY REPORT CONTEXT ===", "Type: " ++ pyStrOpt (jget row "report_type")]
      ++ (if otruthy (jget row "created_at") then
            ["DB Created: " ++ pyStrOpt (jget row "created_at")]
          else [])
      ++ mL ++ [""]) ++ aL ++ cL
      ++ ["(Trimmed to " ++ toString k ++ " items per category)"], ?_⟩
  unfold formatBabyReportLines
  rw [hdv]
  simp only [hmL, haL, hcL]

theorem infix_of_context (l m pre post : List String) (h : l <:+: m) :
    l <:+: pre ++ m ++ post := by
  obtain ⟨s, t, rfl⟩ := h
  exact ⟨pre ++ s, t ++ post, by simp⟩

theorem catsAux_contains (k : Nat) (cs : List (String × JVal)) (A : String)
    (its : JVal) (L sec : List String)
    (hmem : (A, its) ∈ cs) (hca : catsAux k cs = Except.ok L)
    (hsec : categorySection k A its = Except.ok sec) : sec <:+: L := by
  induction cs generalizing L with
  | nil => simp at hmem
  | cons p rest ih =>
    obtain ⟨c0, i0⟩ := p
    unfold catsAux at hca
    split at hca
    · exact absurd hca (by simp)
    case h_2 sec0 hs0 =>
      split at hca
      · exact absurd hca (by simp)
      case h_2 more hm0 =>
        obtain ⟨rfl⟩ := hca
        rcases List.mem_cons.mp hmem with heq | hmem2
        · obtain ⟨rfl, rfl⟩ := Prod.mk.injEq A its c0 i0 ▸ heq
          rw [hsec] at hs0
          obtain ⟨rfl⟩ := hs0
          exact ⟨[], more, by simp⟩
        · obtain ⟨s, t, rfl⟩ := ih more hmem2 hm0
          exact ⟨sec0 ++ s, t, by simp⟩

theorem formatLines_cats (row : Jobj) (k : Nat) (agg : Bool) (L : List String)
    (d : Jobj)
    (h : formatBabyReportLines row k agg = Except.ok L)
    (hd : jget row "data" = some (JVal.obj d)) :
    ∃ pre cLines, categoriesLines k (lookupD d "categories" (JVal.obj [])) = Except.ok cLines
      ∧ L = pre ++ cLines ++ ["(Trimmed to " ++ toString k ++ " items per category)"] := by
  have hdv : lookupD row "data" (JVal.obj []) = JVal.obj d := by simp [lookupD, hd]
  unfold formatBabyReportLines at h
  rw [hdv] at h
  simp only [] at h
  split at h
  · exact absurd h (by simp)
  case h_2 mL hmL =>
    split at h
    · exact absurd h (by simp)
    case h_2 aL haL =>
      split at h
      · exact absurd h (by simp)
      case h_2 cL hcL =>
        obtain ⟨rfl⟩ := h
        refine ⟨["=== BABY REPORT CONTEXT ===", "Type: " ++ pyStrOpt (jget row "report_type")]
          ++ (if otruthy (jget row "created_at") then
                ["DB Created: " ++ pyStrOpt (jget row "created_at")]
              else [])
          ++ mL ++ [""] ++ aL, cL, hcL, by simp⟩

/-! ## Claims -/

/-- C9: `main.py` imports `get_baby_logs_for_prompt` from `supabase_tools`,
but no binding of that name exists in `supabase_tools.py` (which defines
`get_combined_reports_for_prompt` instead), so the `from ... import`
statement cannot resolve and the module fails at import time, leaving the
personalized-context branch of the chat handler unreachable. -/
theorem mainImport_fails :
    mainImportResolves = false
    ∧ "get_baby_logs_for_prompt" ∈ mainImportedNames
    ∧ "get_baby_logs_for_prompt" ∉ supabaseToolsModuleNames := by
  exact ⟨by decide, by decide, by decide⟩

theorem typeFrag_eq_claim (v : Option JVal) (h : strOrFalsy v = true) :
    typeFrag v = Except.ok (claimTypeFrag v) := by
  rcases v with _ | v
  · rfl
  · rcases strOrFalsy_cases v h with ⟨t, rfl⟩ | hf
    · by_cases ht : t = ""
      · subst ht
        rfl
      · simp [typeFrag, claimTypeFrag, jtruthy, bne_iff_ne, ht]
    · have hc : claimTypeFrag (some v) = [] := by
        rcases v with _ | _ | _ | t | _ | _ <;> simp_all [claimTypeFrag, jtruthy]
      simp [typeFrag, hf, hc]

theorem notesFrag_eq_claim (v : Option JVal) (h : strOrFalsy v = true) :
    notesFrag v = Except.ok (claimNotesFrag v) := by
  rcases v with _ | v
  · rfl
  · rcases strOrFalsy_cases v h with ⟨t, rfl⟩ | hf
    · by_cases ht : t = ""
      · subst ht
        rfl
      · simp [notesFrag, claimNotesFrag, jtruthy, bne_iff_ne, ht]
    · have hc : claimNotesFrag (some v) = [] := by
        rcases v with _ | _ | _ | t | _ | _ <;> simp_all [claimNotesFrag, jtruthy]
      simp [notesFrag, hf, hc]

theorem valueFrag_eq_claim (dt : Jobj) :
    valueFrag dt = claimValueFrag (jget dt "value") := by
  cases h : jget dt "value" <;> simp [valueFrag, claimValueFrag, h]

theorem tempFrag_eq_claim (dt : Jobj) :
    tempFrag dt = claimTempFrag (jget dt "temperature") := by
  cases h : jget dt "temperature" <;> simp [tempFrag, claimTempFrag, h]

theorem toothFrag_eq_claim (dt : Jobj) :
    toothFrag dt = claimToothFrag (jget dt "tooth_name") := by
  cases h : jget dt "tooth_name" <;> simp [toothFrag, claimToothFrag, h]

/-- C4 counterexample: an item carrying `temperature=38` renders as
`- temp=38°C`, which does not contain the claimed fragment
`temperature=38°C`; moreover a `type` or a `notes` field that is present
but empty contributes no fragment at all — the line is `- entry` — so the
claim's unqualified "if present" fails for those two fields as well. -/
theorem itemLine_temperature_counterexample :
    (itemLine (JVal.obj [("data", JVal.obj [("temperature", JVal.i 38)])])
      = Except.ok "- temp=38°C"
    ∧ ¬ ("temperature=38°C".data <:+: "- temp=38°C".data))
    ∧ itemLine (JVal.obj [("type", JVal.s "")]) = Except.ok "- entry"
    ∧ itemLine (JVal.obj [("data", JVal.obj [("notes", JVal.s "")])])
      = Except.ok "- entry" := by
  exact ⟨⟨rfl, by decide⟩, rfl, rfl⟩

/-- C4 (amended): for every item on which the renderer does not raise (a
dict item whose `type` and `notes` values are strings or falsy and whose
`data` is a dict or falsy), the fragment list of the rendered item line is
exactly the claim-side list `claimItemParts` — in the fixed order: the
type string when present and non-empty, then the derived duration, then
`value=<value>` when a `value` field is present, then `temp=<value>°C`
(not `temperature=`) when a `temperature` field is present, then
`tooth=<value>` when a `tooth_name` field is present, then the first 120
characters of notes when present and non-empty — with the single word
`entry` substituted when no fragment applies, so the pipe-joined line is
never empty. -/
theorem itemLine_fragment_order (itm dt : Jobj)
    (hdt : pyOrEmpty (jget itm "data") = JVal.obj dt)
    (hty : strOrFalsy (jget itm "type") = true)
    (hns : strOrFalsy (jget dt "notes") = true) :
    itemParts (JVal.obj itm)
      = Except.ok (if (claimItemParts itm dt).isEmpty then ["entry"]
                   else claimItemParts itm dt)
    ∧ itemLine (JVal.obj itm)
      = Except.ok ("- " ++ String.intercalate " | "
          (if (claimItemParts itm dt).isEmpty then ["entry"]
           else claimItemParts itm dt)) := by
  have ht := typeFrag_eq_claim _ hty
  have hn := notesFrag_eq_claim _ hns
  have hparts : itemParts (JVal.obj itm)
      = Except.ok (if (claimItemParts itm dt).isEmpty then ["entry"]
                   else claimItemParts itm dt) := by
    simp only [itemParts, hdt, hn, ht]
    simp [claimItemParts, valueFrag_eq_claim, tempFrag_eq_claim, toothFrag_eq_claim]
  exact ⟨hparts, by simp [itemLine, hparts]⟩

set_option maxRecDepth 4096 in
/-- C4 witness: an item with `type`, `value` and `notes` present and the
other fields absent renders exactly those three fragments in order; an
item with no fields renders as `entry`. -/
theorem itemLine_fragment_order_witness :
    itemLine (JVal.obj [("type", JVal.s "nap"),
        ("data", JVal.obj [("value", JVal.i 3), ("notes", JVal.s "hello")])])
      = Except.ok "- nap | value=3 | hello"
    ∧ itemLine (JVal.obj []) = Except.ok "- entry" := by
  constructor
  · exact ((itemLine_fragment_order
      [("type", JVal.s "nap"),
       ("data", JVal.obj [("value", JVal.i 3), ("notes", JVal.s "hello")])]
      [("value", JVal.i 3), ("notes", JVal.s "hello")]
      rfl (by decide) (by decide)).2).trans
      (congrArg Except.ok (by decide))
  · exact ((itemLine_fragment_order [] [] rfl (by decide) (by decide)).2).trans
      (congrArg Except.ok (by decide))

/-- C3: for an item with truthy `startTime` and `endTime`, the duration
fragment is emitted (as whole minutes, half-to-even rounded) exactly when
both timestamps parse, agree in awareness, and the span lies strictly
between 0 and 1440 minutes (86400000000 microseconds); a non-positive or
too-large span, or an unparseable timestamp, silently yields no fragment
(the function is total, so no error is possible). -/
theorem durationFrag_spec (dt : Jobj) (sv ev : JVal) (sdt edt : PyDateTime)
    (hs : jget dt "startTime" = some sv) (he : jget dt "endTime" = some ev)
    (hst : jtruthy sv = true) (het : jtruthy ev = true) :
    (pyFromIsoformat (pyReplaceZ (pyStr sv)) = some sdt →
     pyFromIsoformat (pyReplaceZ (pyStr ev)) = some edt →
     sdt.aware = edt.aware →
       ((0 < edt.micros - sdt.micros → edt.micros - sdt.micros < 86400000000 →
          durationFrag dt
            = [toString (roundHalfEvenDiv (edt.micros - sdt.micros) 60000000) ++ "m"])
        ∧ (edt.micros - sdt.micros ≤ 0 ∨ 86400000000 ≤ edt.micros - sdt.micros →
          durationFrag dt = [])))
    ∧ (pyFromIsoformat (pyReplaceZ (pyStr sv)) = none → durationFrag dt = [])
    ∧ (pyFromIsoformat (pyReplaceZ (pyStr ev)) = none → durationFrag dt = []) := by
  refine ⟨?_, ?_, ?_⟩
  · intro hps hpe haw
    constructor
    · intro h1 h2
      unfold durationFrag
      rw [hs, he]
      simp [hst, het, hps, hpe, haw, h1, h2]
    · intro h
      have hb : (decide (0 < edt.micros - sdt.micros)
          && decide (edt.micros - sdt.micros < 86400000000)) = false := by
        rcases h with h | h <;> simp <;> omega
      unfold durationFrag
      rw [hs, he]
      simp only [hst, het, Bool.and_self, if_true]
      rw [hps, hpe]
      simp [haw, hb]
      omega
  · intro hn
    unfold durationFrag
    rw [hs, he]
    simp [hst, het, hn]
  · intro hn
    unfold durationFrag
    rw [hs, he]
    simp only [hst, het, Bool.and_self, if_true]
    cases hps : pyFromIsoformat (pyReplaceZ (pyStr sv)) <;> simp [hn]

/-- C3 witness: a 90-minute span (10:00Z to 11:30Z) renders as `90m`. -/
theorem durationFrag_spec_witness :
    durationFrag [("startTime", JVal.s "2024-01-01T10:00:00Z"),
                  ("endTime", JVal.s "2024-01-01T11:30:00Z")] = ["90m"] := by
  have h := (durationFrag_spec
      [("startTime", JVal.s "2024-01-01T10:00:00Z"),
       ("endTime", JVal.s "2024-01-01T11:30:00Z")]
      (JVal.s "2024-01-01T10:00:00Z") (JVal.s "2024-01-01T11:30:00Z")
      ⟨true, 1704103200000000⟩ ⟨true, 1704108600000000⟩
      rfl rfl (by decide) (by decide)).1
      (by decide) (by decide) rfl
  exact (h.1 (by decide) (by decide)).trans (by decide)

/-- C2: for a record whose `categories` contain category `A` with `n` items
and a positive cap `k`, when `k < n` the rendered line list contains, for
category `A`, its header followed by exactly `k` item lines and exactly one
omission line stating `n - k` (then the section's blank line); when
`k ≥ n` the section carries no omission line. -/
theorem categorySection_cap (row : Jobj) (k : Nat) (agg : Bool) (L ls : List String)
    (A : String) (its : List JVal) (d cs : Jobj)
    (hd : jget row "data" = some (JVal.obj d))
    (hc : jget d "categories" = some (JVal.obj cs))
    (hmem : (A, JVal.arr its) ∈ cs)
    (hfmt : formatBabyReportLines row k agg = Except.ok L)
    (hls : itemLinesOf (its.take k) = Except.ok ls)
    (_hk : 0 < k) :
    (k < its.length →
      categorySection k A (JVal.arr its)
        = Except.ok (("[" ++ pyUpper A ++ "]") :: ls
            ++ ["... (+" ++ toString (its.length - k) ++ " more)", ""])
      ∧ ls.length = k
      ∧ (("[" ++ pyUpper A ++ "]") :: ls
            ++ ["... (+" ++ toString (its.length - k) ++ " more)", ""]) <:+: L)
    ∧ (its.length ≤ k → its ≠ [] →
      categorySection k A (JVal.arr its)
        = Except.ok (("[" ++ pyUpper A ++ "]") :: ls ++ [""])
      ∧ (("[" ++ pyUpper A ++ "]") :: ls ++ [""]) <:+: L) := by
  have hcv : lookupD d "categories" (JVal.obj []) = JVal.obj cs := by
    simp [lookupD, hc]
  obtain ⟨pre, cLines, hcL, rfl⟩ := formatLines_cats row k agg L d hfmt hd
  rw [hcv] at hcL
  constructor
  · intro hkn
    have hne : its.isEmpty = false := by
      cases its
      · simp at hkn
      · rfl
    have hsec : categorySection k A (JVal.arr its)
        = Except.ok (("[" ++ pyUpper A ++ "]") :: ls
            ++ ["... (+" ++ toString (its.length - k) ++ " more)", ""]) := by
      simp [categorySection, hne, hls, hkn]
    refine ⟨hsec, ?_, ?_⟩
    · rw [itemLinesOf_length _ _ hls]
      simp
      omega
    · exact infix_of_context _ _ pre
        ["(Trimmed to " ++ toString k ++ " items per category)"]
        (catsAux_contains k cs A (JVal.arr its) cLines _ hmem hcL hsec)
  · intro hkn hne0
    have hne : its.isEmpty = false := by
      cases its
      · exact absurd rfl hne0
      · rfl
    have hsec : categorySection k A (JVal.arr its)
        = Except.ok (("[" ++ pyUpper A ++ "]") :: ls ++ [""]) := by
      have hnk : ¬ k < its.length := by omega
      simp [categorySection, hne, hls, hnk]
    refine ⟨hsec, ?_⟩
    exact infix_of_context _ _ pre
      ["(Trimmed to " ++ toString k ++ " items per category)"]
      (catsAux_contains k cs A (JVal.arr its) cLines _ hmem hcL hsec)

/-- C2 witness: category `a` with 2 items and cap 1 renders one item line
plus the omission line `... (+1 more)` inside the full line list. -/
theorem categorySection_cap_witness :
    categorySection 1 "a" (JVal.arr [JVal.obj [], JVal.obj []])
      = Except.ok (("[" ++ pyUpper "a" ++ "]") :: ["- entry"]
          ++ ["... (+" ++ toString ([JVal.obj [], JVal.obj []].length - 1) ++ " more)", ""])
    ∧ (["- entry"] : List String).length = 1
    ∧ (("[" ++ pyUpper "a" ++ "]") :: ["- entry"]
          ++ ["... (+" ++ toString ([JVal.obj [], JVal.obj []].length - 1) ++ " more)", ""])
        <:+: ["=== BABY REPORT CONTEXT ===", "Type: None", "", "[A]", "- entry",
              "... (+1 more)", "", "(Trimmed to 1 items per category)"] :=
  (categorySection_cap
    [("data", JVal.obj [("categories", JVal.obj
        [("a", JVal.arr [JVal.obj [], JVal.obj []])])])]
    1 true
    ["=== BABY REPORT CONTEXT ===", "Type: None", "", "[A]", "- entry",
     "... (+1 more)", "", "(Trimmed to 1 items per category)"]
    ["- entry"] "a" [JVal.obj [], JVal.obj []]
    [("categories", JVal.obj [("a", JVal.arr [JVal.obj [], JVal.obj []])])]
    [("a", JVal.arr [JVal.obj [], JVal.obj []])]
    rfl rfl (by simp) (by rfl) rfl (by decide)).1 (by decide)

/-- C6: normalizing a row whose `data` field is a string that decodes to
the mapping `d` gives the same normalized record as normalizing the row
with `data` already the mapping `d`; a string `json.loads` rejects, or any
non-mapping non-string value, normalizes to all-empty `categories`,
`aggregates` and `meta`. -/
theorem normalizeRow_spec (jsonLoads : String → Option JVal) (row : Jobj)
    (str : String) (d : Jobj) (v : JVal) :
    (jsonLoads str = some (JVal.obj d) →
      normalizeRow jsonLoads (jset row "data" (JVal.s str))
        = normalizeRow jsonLoads (jset row "data" (JVal.obj d)))
    ∧ (jsonLoads str = none →
      normalizeRow jsonLoads (jset row "data" (JVal.s str))
        = Except.ok (jset row "data" (JVal.obj
            [("categories", JVal.obj []), ("aggregates", JVal.obj []),
             ("meta", JVal.obj [])])))
    ∧ ((∀ kvs, v ≠ JVal.obj kvs) → (∀ t, v ≠ JVal.s t) →
      normalizeRow jsonLoads (jset row "data" v)
        = Except.ok (jset row "data" (JVal.obj
            [("categories", JVal.obj []), ("aggregates", JVal.obj []),
             ("meta", JVal.obj [])]))) := by
  refine ⟨?_, ?_, ?_⟩
  · intro h
    unfold normalizeRow
    rw [jget_jset_self, jget_jset_self]
    simp only [parseReportData, h]
    rw [jset_jset, jset_jset]
  · intro h
    unfold normalizeRow
    rw [jget_jset_self]
    simp only [parseReportData, h]
    rw [jset_jset]
    simp [jget]
  · intro h1 h2
    have hp : parseReportData jsonLoads v = JVal.obj [] := by
      cases v
      case obj kvs => exact absurd rfl (h1 kvs)
      case s t => exact absurd rfl (h2 t)
      all_goals rfl
    unfold normalizeRow
    rw [jget_jset_self, hp]
    simp [jget, jset_jset]

/-- C6 witness: a concrete decoder, a decodable string, an undecodable
string, and an integer `data` value. -/
theorem normalizeRow_spec_witness :
    (normalizeRow (fun t => if t = "x" then some (JVal.obj [("meta", JVal.obj [])]) else none)
        (jset [] "data" (JVal.s "x"))
      = normalizeRow (fun t => if t = "x" then some (JVal.obj [("meta", JVal.obj [])]) else none)
        (jset [] "data" (JVal.obj [("meta", JVal.obj [])])))
    ∧ (normalizeRow (fun t => if t = "x" then some (JVal.obj [("meta", JVal.obj [])]) else none)
        (jset [] "data" (JVal.s "y"))
      = Except.ok (jset [] "data" (JVal.obj
          [("categories", JVal.obj []), ("aggregates", JVal.obj []),
           ("meta", JVal.obj [])])))
    ∧ (normalizeRow (fun t => if t = "x" then some (JVal.obj [("meta", JVal.obj [])]) else none)
        (jset [] "data" (JVal.i 7))
      = Except.ok (jset [] "data" (JVal.obj
          [("categories", JVal.obj []), ("aggregates", JVal.obj []),
           ("meta", JVal.obj [])]))) :=
  ⟨(normalizeRow_spec _ [] "x" [("meta", JVal.obj [])] JVal.null).1 rfl,
   (normalizeRow_spec _ [] "y" [] JVal.null).2.1 rfl,
   (normalizeRow_spec _ [] "" [] (JVal.i 7)).2.2 (fun _ h => by cases h) (fun _ h => by cases h)⟩

/-- C8 counterexample: a record whose item has the non-string `notes`
value `5` makes `format_baby_report` raise a `TypeError` (Python slices
`notes[:120]`), contradicting the claim that the renderer never raises on
records with malformed sub-fields such as non-string notes. -/
theorem formatBabyReport_raises_counterexample :
    formatBabyReport [("data", JVal.obj [("categories", JVal.obj
        [("sleep", JVal.arr [JVal.obj [("data", JVal.obj [("notes", JVal.i 5)])]])])])]
      5 true = Except.error "TypeError" := rfl

/-- C8 (amended): the renderer is pure and total on rows whose sub-fields
are well shaped or falsy — dict-or-absent `data`, dict-or-falsy
`aggregates` and `meta`, dict-or-absent `categories` whose non-list or
empty values render as `(no entries)`, dict items with string-or-falsy
`type` and `notes` and dict-or-falsy item `data`; an empty (or absent)
record renders to the single placeholder line.  (A truthy non-string
`notes` or `type`, or a non-dict item, makes the source raise, so the
original unconditional claim fails.) -/
theorem formatBabyReport_total (row : Jobj) (k : Nat) (agg : Bool)
    (h : wellFormedRow row = true) :
    (∃ text, formatBabyReport row k agg = Except.ok text)
    ∧ formatBabyReport [] k agg = Except.ok "Report: (empty)" := by
  constructor
  · by_cases he : row.isEmpty
    · exact ⟨"Report: (empty)", by simp [formatBabyReport, he]⟩
    · obtain ⟨L, hL⟩ := formatBabyReportLines_ok row k agg h
      exact ⟨String.intercalate "\n" L, by simp [formatBabyReport, he, hL]⟩
  · rfl

/-- C8 witness: a well-formed row with an empty-list category and a
non-list category value. -/
theorem formatBabyReport_total_witness :
    wellFormedRow [("data", JVal.obj [("categories", JVal.obj
        [("a", JVal.arr []), ("b", JVal.i 3)])])] = true
    ∧ ((∃ text, formatBabyReport [("data", JVal.obj [("categories", JVal.obj
          [("a", JVal.arr []), ("b", JVal.i 3)])])] 5 true = Except.ok text)
        ∧ formatBabyReport [] 5 true = Except.ok "Report: (empty)") :=
  ⟨by decide,
   formatBabyReport_total [("data", JVal.obj [("categories", JVal.obj
      [("a", JVal.arr []), ("b", JVal.i 3)])])] 5 true (by decide)⟩

theorem getBabyReportRaw_miss (jsonLoads : String → Option JVal)
    (store : String → String → String → StoreResult)
    (now : Int) (st : Jcache) (babyId accessToken reportType : String)
    (hc : cacheGet st (babyId, reportType) = none) :
    getBabyReportRaw jsonLoads store now st babyId accessToken reportType
      = fetchFromStore jsonLoads store now st babyId accessToken reportType := by
  unfold getBabyReportRaw
  rw [hc]

theorem getBabyReportFormatted_notFound (jsonLoads : String → Option JVal)
    (store : String → String → String → StoreResult)
    (now : Int) (st : Jcache) (babyId accessToken reportType : String) (k : Nat)
    (h : (getBabyReportRaw jsonLoads store now st babyId accessToken reportType).result
      = none) :
    getBabyReportFormatted jsonLoads store now st babyId accessToken reportType k
      = Except.ok
          ((getBabyReportRaw jsonLoads store now st babyId accessToken reportType).cache,
           "No report found: " ++ reportType) := by
  unfold getBabyReportFormatted
  simp only [h]

/-- C1 (amended): when the first call's store query succeeds with at least
one row (writing the cache), a second call for the same key within the
60-second TTL issues no store query and returns the cached row, whatever
decoder, store behaviour and credential the second call sees; a call made
at or after TTL seconds from the cache write issues a new store query.
(When the first call's query returns zero rows or fails, no cache entry is
written, so the claim's "for every outcome, including zero rows" part
fails — see the counterexample.) -/
theorem cache_ttl_spec (jsonLoads jsonLoads2 : String → Option JVal)
    (store store2 : String → String → String → StoreResult)
    (now1 now2 : Int) (st : Jcache) (babyId tok tok2 reportType : String) (row : Jobj)
    (h1 : (getBabyReportRaw jsonLoads store now1 st babyId tok reportType).queried = true)
    (h2 : (getBabyReportRaw jsonLoads store now1 st babyId tok reportType).result
      = some row) :
    (now2 - now1 < REPORT_CACHE_TTL →
      getBabyReportRaw jsonLoads2 store2 now2
          (getBabyReportRaw jsonLoads store now1 st babyId tok reportType).cache
          babyId tok2 reportType
        = ⟨(getBabyReportRaw jsonLoads store now1 st babyId tok reportType).cache,
           false, some row⟩)
    ∧ (REPORT_CACHE_TTL ≤ now2 - now1 →
      (getBabyReportRaw jsonLoads2 store2 now2
          (getBabyReportRaw jsonLoads store now1 st babyId tok reportType).cache
          babyId tok2 reportType).queried = true) := by
  have hfetch := getBabyReportRaw_queried_fetch jsonLoads store now1 st babyId tok
    reportType h1
  rw [hfetch] at h2
  have hsucc := fetchFromStore_success jsonLoads store now1 st babyId tok
    reportType row h2
  have hget : cacheGet
      (getBabyReportRaw jsonLoads store now1 st babyId tok reportType).cache
      (babyId, reportType) = some (now1, row) := by
    rw [hfetch, hsucc]
    exact cacheGet_cacheInsert_self st (babyId, reportType) (now1, row)
  constructor
  · intro hlt
    exact getBabyReportRaw_hit jsonLoads2 store2 now2 now1 _ babyId tok2 reportType
      row hget hlt
  · intro hge
    rw [getBabyReportRaw_expired jsonLoads2 store2 now2 now1 _ babyId tok2 reportType
      row hget (by omega)]
    exact fetchFromStore_queried jsonLoads2 store2 now2 _ babyId tok2 reportType

/-- C1 counterexample: with an empty cache and a store returning zero rows,
no cache entry is written, so two calls one second apart (well within the
TTL) each issue a store query — refuting "at most one store query ... for
every outcome of the first call, including when the store returns zero
rows". -/
theorem cache_zero_rows_counterexample :
    (getBabyReportRaw (fun _ => none) (fun _ _ _ => StoreResult.rows []) 0 []
        "b" "t" "weekly_summary").queried = true
    ∧ (getBabyReportRaw (fun _ => none) (fun _ _ _ => StoreResult.rows []) 1
        (getBabyReportRaw (fun _ => none) (fun _ _ _ => StoreResult.rows []) 0 []
          "b" "t" "weekly_summary").cache
        "b" "t" "weekly_summary").queried = true
    ∧ (1 : Int) - 0 < REPORT_CACHE_TTL :=
  ⟨rfl, rfl, by decide⟩

/-- C1 witness: a successful fetch at time 0, re-read at time 59 (hit) and
at time 60 (expired, queried again). -/
theorem cache_ttl_spec_witness :
    (getBabyReportRaw (fun _ => none) (fun _ _ _ => StoreResult.rows [[]]) 59
        (getBabyReportRaw (fun _ => none) (fun _ _ _ => StoreResult.rows [[]]) 0 []
          "b" "t" "weekly_summary").cache
        "b" "t2" "weekly_summary"
      = ⟨(getBabyReportRaw (fun _ => none) (fun _ _ _ => StoreResult.rows [[]]) 0 []
            "b" "t" "weekly_summary").cache,
         false,
         some [("data", JVal.obj [("categories", JVal.obj []),
            ("aggregates", JVal.obj []), ("meta", JVal.obj [])])]⟩)
    ∧ (getBabyReportRaw (fun _ => none) (fun _ _ _ => StoreResult.rows [[]]) 60
        (getBabyReportRaw (fun _ => none) (fun _ _ _ => StoreResult.rows [[]]) 0 []
          "b" "t" "weekly_summary").cache
        "b" "t2" "weekly_summary").queried = true := by
  have h := cache_ttl_spec (fun _ => none) (fun _ => none)
    (fun _ _ _ => StoreResult.rows [[]]) (fun _ _ _ => StoreResult.rows [[]])
    0 59 [] "b" "t" "t2" "weekly_summary"
    [("data", JVal.obj [("categories", JVal.obj []),
       ("aggregates", JVal.obj []), ("meta", JVal.obj [])])]
    rfl rfl
  have h2 := cache_ttl_spec (fun _ => none) (fun _ => none)
    (fun _ _ _ => StoreResult.rows [[]]) (fun _ _ _ => StoreResult.rows [[]])
    0 60 [] "b" "t" "t2" "weekly_summary"
    [("data", JVal.obj [("categories", JVal.obj []),
       ("aggregates", JVal.obj []), ("meta", JVal.obj [])])]
    rfl rfl
  exact ⟨h.1 (by decide), h2.2 (by decide)⟩

/-- C10: the cache key omits the credential: once a fetch for
`(baby_id, report_type)` has populated the cache, any call within the TTL
returns the cached row without consulting the store, so its outcome is
identical for any two access tokens (and any two store/decoder
behaviours). -/
theorem cache_ignores_token (jsonLoads jl2 jl3 : String → Option JVal)
    (store store2 store3 : String → String → String → StoreResult)
    (now1 now2 : Int) (st : Jcache) (babyId tok tok2 tok3 reportType : String)
    (row : Jobj)
    (h1 : (getBabyReportRaw jsonLoads store now1 st babyId tok reportType).queried = true)
    (h2 : (getBabyReportRaw jsonLoads store now1 st babyId tok reportType).result
      = some row)
    (hlt : now2 - now1 < REPORT_CACHE_TTL) :
    getBabyReportRaw jl2 store2 now2
        (getBabyReportRaw jsonLoads store now1 st babyId tok reportType).cache
        babyId tok2 reportType
      = getBabyReportRaw jl3 store3 now2
          (getBabyReportRaw jsonLoads store now1 st babyId tok reportType).cache
          babyId tok3 reportType
    ∧ getBabyReportRaw jl2 store2 now2
        (getBabyReportRaw jsonLoads store now1 st babyId tok reportType).cache
        babyId tok2 reportType
      = ⟨(getBabyReportRaw jsonLoads store now1 st babyId tok reportType).cache,
         false, some row⟩ := by
  have hfetch := getBabyReportRaw_queried_fetch jsonLoads store now1 st babyId tok
    reportType h1
  rw [hfetch] at h2
  have hsucc := fetchFromStore_success jsonLoads store now1 st babyId tok
    reportType row h2
  have hget : cacheGet
      (getBabyReportRaw jsonLoads store now1 st babyId tok reportType).cache
      (babyId, reportType) = some (now1, row) := by
    rw [hfetch, hsucc]
    exact cacheGet_cacheInsert_self st (babyId, reportType) (now1, row)
  have e2 := getBabyReportRaw_hit jl2 store2 now2 now1 _ babyId tok2 reportType
    row hget hlt
  have e3 := getBabyReportRaw_hit jl3 store3 now2 now1 _ babyId tok3 reportType
    row hget hlt
  exact ⟨e2.trans e3.symm, e2⟩

/-- C10 witness: tokens `t2` and `t3` with different store behaviours get
the identical cached row. -/
theorem cache_ignores_token_witness :
    getBabyReportRaw (fun _ => none) (fun _ _ _ => StoreResult.rows []) 10
        (getBabyReportRaw (fun _ => none) (fun _ _ _ => StoreResult.rows [[]]) 0 []
          "b" "t" "weekly_summary").cache
        "b" "t2" "weekly_summary"
      = getBabyReportRaw (fun _ => none) (fun _ _ _ => StoreResult.unavailable) 10
          (getBabyReportRaw (fun _ => none) (fun _ _ _ => StoreResult.rows [[]]) 0 []
            "b" "t" "weekly_summary").cache
          "b" "t3" "weekly_summary" :=
  (cache_ignores_token (fun _ => none) (fun _ => none) (fun _ => none)
    (fun _ _ _ => StoreResult.rows [[]]) (fun _ _ _ => StoreResult.rows [])
    (fun _ _ _ => StoreResult.unavailable)
    0 10 [] "b" "t" "t2" "t3" "weekly_summary"
    [("data", JVal.obj [("categories", JVal.obj []),
       ("aggregates", JVal.obj []), ("meta", JVal.obj [])])]
    rfl rfl (by decide)).1

/-- C5 (amended): on a cache miss the accessor returns `None` — an explicit
absence signal, never an exception — both when the store returns zero rows
and when it is unavailable; the two failure modes are therefore NOT
distinguished (refuting the claimed distinct `NotFound` /
`StoreUnavailable` outcomes), and `get_baby_report_formatted` maps both to
the same `No report found` text. -/
theorem absence_signals (jsonLoads : String → Option JVal)
    (store : String → String → String → StoreResult)
    (now : Int) (st : Jcache) (babyId tok reportType : String) (k : Nat)
    (hc : cacheGet st (babyId, reportType) = none) :
    (store tok babyId reportType = StoreResult.rows [] →
      (getBabyReportRaw jsonLoads store now st babyId tok reportType).result = none
      ∧ getBabyReportFormatted jsonLoads store now st babyId tok reportType k
          = Except.ok (st, "No report found: " ++ reportType))
    ∧ (store tok babyId reportType = StoreResult.unavailable →
      (getBabyReportRaw jsonLoads store now st babyId tok reportType).result = none
      ∧ getBabyReportFormatted jsonLoads store now st babyId tok reportType k
          = Except.ok (st, "No report found: " ++ reportType)) := by
  have hmiss := getBabyReportRaw_miss jsonLoads store now st babyId tok reportType hc
  constructor
  · intro hs
    have hres : (getBabyReportRaw jsonLoads store now st babyId tok reportType).result
        = none := by
      rw [hmiss]
      unfold fetchFromStore
      rw [hs]
    refine ⟨hres, ?_⟩
    rw [getBabyReportFormatted_notFound jsonLoads store now st babyId tok reportType
      k hres, hmiss]
    unfold fetchFromStore
    rw [hs]
  · intro hs
    have hres : (getBabyReportRaw jsonLoads store now st babyId tok reportType).result
        = none := by
      rw [hmiss]
      unfold fetchFromStore
      rw [hs]
    refine ⟨hres, ?_⟩
    rw [getBabyReportFormatted_notFound jsonLoads store now st babyId tok reportType
      k hres, hmiss]
    unfold fetchFromStore
    rw [hs]

/-- C5 counterexample: zero rows and an unavailable store produce the very
same accessor outcome (`None`, no exception) — there is no distinct
`StoreUnavailable` signal. -/
theorem absence_indistinguishable_counterexample :
    getBabyReportRaw (fun _ => none) (fun _ _ _ => StoreResult.rows []) 0 []
        "b" "t" "weekly_summary"
      = getBabyReportRaw (fun _ => none) (fun _ _ _ => StoreResult.unavailable) 0 []
          "b" "t" "weekly_summary"
    ∧ (getBabyReportRaw (fun _ => none) (fun _ _ _ => StoreResult.rows []) 0 []
        "b" "t" "weekly_summary").result = none :=
  ⟨rfl, rfl⟩

/-- C5 witness: concrete cache-miss instances of both failure modes. -/
theorem absence_signals_witness :
    ((getBabyReportRaw (fun _ => none) (fun _ _ _ => StoreResult.rows []) 0 []
        "b" "t" "weekly_summary").result = none
      ∧ getBabyReportFormatted (fun _ => none) (fun _ _ _ => StoreResult.rows []) 0 []
          "b" "t" "weekly_summary" 6
        = Except.ok ([], "No report found: " ++ "weekly_summary")) :=
  (absence_signals (fun _ => none) (fun _ _ _ => StoreResult.rows []) 0 []
    "b" "t" "weekly_summary" 6 rfl).1 rfl

/-- C7: with `order="weekly_first"` and both kinds requested, when both
blocks render and neither is empty nor a `No report found` text, the
output is the weekly block, a blank-line separator, then the daily block;
when the weekly fetch finds no row its block is dropped and the output is
the daily block alone with no leading separator; when both fetches find no
row every block is dropped and the output is the empty string. -/
theorem combined_weekly_first (jsonLoads : String → Option JVal)
    (store : String → String → String → StoreResult)
    (now : Int) (st : Jcache) (babyId tok : String)
    (st1 st2 : Jcache) (ws ds : String) :
    (getBabyReportFormatted jsonLoads store now st babyId tok "weekly_summary" 6
        = Except.ok (st1, ws) →
     getBabyReportFormatted jsonLoads store now st1 babyId tok "end_of_day_summary" 6
        = Except.ok (st2, ds) →
     pyStartsWith ws "No report found" = false → ws ≠ "" →
     pyStartsWith ds "No report found" = false → ds ≠ "" →
     getCombinedReportsForPrompt jsonLoads store now st babyId tok true true
        "weekly_first"
      = Except.ok (st2, ws ++ "\n\n" ++ ds))
    ∧
    ((getBabyReportRaw jsonLoads store now st babyId tok "weekly_summary").result
        = none →
     getBabyReportFormatted jsonLoads store now
        (getBabyReportRaw jsonLoads store now st babyId tok "weekly_summary").cache
        babyId tok "end_of_day_summary" 6 = Except.ok (st2, ds) →
     pyStartsWith ds "No report found" = false → ds ≠ "" →
     getCombinedReportsForPrompt jsonLoads store now st babyId tok true true
        "weekly_first"
      = Except.ok (st2, ds))
    ∧
    ((getBabyReportRaw jsonLoads store now st babyId tok "weekly_summary").result
        = none →
     (getBabyReportRaw jsonLoads store now
        (getBabyReportRaw jsonLoads store now st babyId tok "weekly_summary").cache
        babyId tok "end_of_day_summary").result = none →
     getCombinedReportsForPrompt jsonLoads store now st babyId tok true true
        "weekly_first"
      = Except.ok ((getBabyReportRaw jsonLoads store now
          (getBabyReportRaw jsonLoads store now st babyId tok "weekly_summary").cache
          babyId tok "end_of_day_summary").cache, "")) := by
  refine ⟨?_, ?_, ?_⟩
  · intro h1 h2 hw1 hw2 hd1 hd2
    have hw2b : (ws != "") = true := bne_iff_ne.mpr hw2
    have hd2b : (ds != "") = true := bne_iff_ne.mpr hd2
    unfold getCombinedReportsForPrompt
    simp only [if_true, h1, h2, Except.map]
    simp [insSortByKey, insertByKey, List.filter, hw1, hd1, hw2b, hd2b]
    rfl
  · intro h1 h2 hd1 hd2
    have hwf := getBabyReportFormatted_notFound jsonLoads store now st babyId tok
      "weekly_summary" 6 h1
    have hd2b : (ds != "") = true := bne_iff_ne.mpr hd2
    have hw : pyStartsWith "No report found: weekly_summary"
        "No report found" = true := by decide
    unfold getCombinedReportsForPrompt
    simp only [if_true, hwf, h2, Except.map]
    simp [insSortByKey, insertByKey, List.filter, hd1, hd2b, hw]
    rfl
  · intro h1 h2
    have hwf := getBabyReportFormatted_notFound jsonLoads store now st babyId tok
      "weekly_summary" 6 h1
    have hdf := getBabyReportFormatted_notFound jsonLoads store now
      (getBabyReportRaw jsonLoads store now st babyId tok "weekly_summary").cache
      babyId tok "end_of_day_summary" 6 h2
    have hw : pyStartsWith "No report found: weekly_summary"
        "No report found" = true := by decide
    have hd : pyStartsWith "No report found: end_of_day_summary"
        "No report found" = true := by decide
    unfold getCombinedReportsForPrompt
    simp only [if_true, hwf, hdf, Except.map]
    simp [insSortByKey, insertByKey, List.filter, hw, hd]
    rfl

/-- C7 witness: a store with one row per kind; the weekly block precedes
the daily block with a blank-line separator. -/
theorem combined_weekly_first_witness :
    getCombinedReportsForPrompt (fun _ => none)
        (fun _ _ rt => StoreResult.rows [[("report_type", JVal.s rt)]])
        0 [] "b" "t" true true "weekly_first"
      = Except.ok
          ([(("b", "weekly_summary"),
             (0, [("report_type", JVal.s "weekly_summary"),
                  ("data", JVal.obj [("categories", JVal.obj []),
                    ("aggregates", JVal.obj []), ("meta", JVal.obj [])])])),
            (("b", "end_of_day_summary"),
             (0, [("report_type", JVal.s "end_of_day_summary"),
                  ("data", JVal.obj [("categories", JVal.obj []),
                    ("aggregates", JVal.obj []), ("meta", JVal.obj [])])]))],
           "=== BABY REPORT CONTEXT ===\nType: weekly_summary\n\n(Trimmed to 6 items per category)"
           ++ "\n\n"
           ++ "=== BABY REPORT CONTEXT ===\nType: end_of_day_summary\n\n(Trimmed to 6 items per category)") :=
  (combined_weekly_first (fun _ => none)
    (fun _ _ rt => StoreResult.rows [[("report_type", JVal.s rt)]])
    0 [] "b" "t"
    [(("b", "weekly_summary"),
      (0, [("report_type", JVal.s "weekly_summary"),
           ("data", JVal.obj [("categories", JVal.obj []),
             ("aggregates", JVal.obj []), ("meta", JVal.obj [])])]))]
    [(("b", "weekly_summary"),
      (0, [("report_type", JVal.s "weekly_summary"),
           ("data", JVal.obj [("categories", JVal.obj []),
             ("aggregates", JVal.obj []), ("meta", JVal.obj [])])])),
     (("b", "end_of_day_summary"),
      (0, [("report_type", JVal.s "end_of_day_summary"),
           ("data", JVal.obj [("categories", JVal.obj []),
             ("aggregates", JVal.obj []), ("meta", JVal.obj [])])]))]
    "=== BABY REPORT CONTEXT ===\nType: weekly_summary\n\n(Trimmed to 6 items per category)"
    "=== BABY REPORT CONTEXT ===\nType: end_of_day_summary\n\n(Trimmed to 6 items per category)").1
    rfl rfl (by decide) (by decide) (by decide) (by decide)
